import Mathlib

/-!
Shallow embedding of `src/vrrp_service.py`, a single-file Flask service that
manages a VRRP configuration document.  The service exposes one resource
(`/vrrp`) with methods OPTIONS, GET, POST, PUT, DELETE over two external
collaborators: a single JSON file at a canonical path (the Config Store)
and an external script (the Actuator, `run_vrrp_script`).

Modelling choices:
* JSON values are the inductive `JsonVal` (objects keep insertion order, as
  Python dicts do; keys are strings, as `json.load` produces).
* The Config Store is `Option FileData`: `none` when no file exists at
  `CONF_PATH`; `some (.jsonFile j)` when reading+parsing the file yields `j`;
  `some (.corruptFile e)` when opening/parsing raises an exception with
  message `e`.
* Filesystem and subprocess outcomes for one request are oracle inputs in
  `Env`: whether `os.makedirs`, the staged tmp-file write, `os.replace` and
  `os.remove` succeed (with exception text on failure), and the Actuator's
  behaviour as a function from the verb to its result.  `os.replace` is
  atomic: on failure the canonical path is unchanged.
* `run_vrrp_script` never raises: it returns either the dict
  `{returncode, stdout, stderr}` or the dict `{error: ...}` (`ScriptResult`).
* Python exceptions that escape the handler are modelled by `Except PyExn`:
  `typeError` is the `TypeError` raised by `"vrrp" in payload` when the
  payload is a number, boolean or `None`; `badRequestExn` is the
  `werkzeug.exceptions.BadRequest` raised by `request.get_json()` on a
  syntactically invalid JSON body; `osError e` is an exception raised by
  `os.makedirs` (which the handler does not wrap in `try`).
* The handler additionally returns the trace of external interactions
  (filesystem operations and Actuator invocations, in order), so that
  ordering claims ("rejected before any filesystem or Actuator interaction",
  "actuates first") are statable.
-/

/-- A JSON value, as produced by Flask's `request.get_json()` /
Python's `json.load`.  Numbers are modelled as integers (no claim depends
on fractional values). -/
inductive JsonVal where
  | null : JsonVal
  | bool (b : Bool) : JsonVal
  | num (n : Int) : JsonVal
  | str (s : String) : JsonVal
  | arr (xs : List JsonVal) : JsonVal
  | obj (kvs : List (String × JsonVal)) : JsonVal

/-- Python exceptions that can escape `vrrp_handler` uncaught. -/
inductive PyExn where
  /-- `TypeError: argument of type ... is not iterable`, raised by
  `"vrrp" in payload` when the payload is an int, float, bool or `None`. -/
  | typeError : PyExn
  /-- `werkzeug.exceptions.BadRequest`, raised by `request.get_json()`
  when the body has a JSON content type but does not parse. -/
  | badRequestExn : PyExn
  /-- An `OSError` raised by `os.makedirs` in `ensure_conf_dir`, which the
  handler calls outside any `try` block. -/
  | osError (msg : String) : PyExn
  deriving DecidableEq

/-- Substring test on lists of characters: Python's `needle in hay` for
strings (`"" in s` is `True`). -/
def listContainsSub (hay needle : List Char) : Bool :=
  match hay with
  | [] => needle.isEmpty
  | _ :: t => needle.isPrefixOf hay || listContainsSub t needle

/-- Key membership in a Python dict, viewed as an ordered association list. -/
def hasKey (k : String) (kvs : List (String × JsonVal)) : Bool :=
  kvs.any (fun kv => kv.1 = k)

/-- Python's membership test `needle in payload` on a JSON value:
key membership for dicts, element equality for lists, substring for
strings; raises `TypeError` for `None`, booleans and numbers. -/
def jsonContains (needle : String) : JsonVal → Except PyExn Bool
  | .obj kvs => .ok (hasKey needle kvs)
  | .arr xs =>
      -- Python `==` between a list element and the string: true only when
      -- the element is that same string (no other JSON value equals a str).
      .ok (xs.any (fun x => match x with | .str s => s = needle | _ => false))
  | .str s => .ok (listContainsSub s.toList needle.toList)
  | .null => .error .typeError
  | .bool _ => .error .typeError
  | .num _ => .error .typeError

/-- Whether a JSON value is an object carrying the key `k` at top level
(the sense in which the design document says the stored document "must
contain a top-level key `vrrp`"). -/
def isObjWithKey (k : String) : JsonVal → Bool
  | .obj kvs => hasKey k kvs
  | _ => false

/-- Result of `run_vrrp_script`: either the dict
`{"returncode": ..., "stdout": ..., "stderr": ...}` from a completed
`subprocess.run`, or the dict `{"error": ...}` when the executable is
missing or cannot be spawned.  The function never raises. -/
inductive ScriptResult where
  | ok (returncode : Int) (stdout stderr : String) : ScriptResult
  | err (msg : String) : ScriptResult
  deriving DecidableEq

/-- The JSON value embedded in responses for a script result
(the dict returned by `run_vrrp_script`, verbatim). -/
def ScriptResult.toJson : ScriptResult → JsonVal
  | .ok rc out errOut =>
      .obj [("returncode", .num rc), ("stdout", .str out), ("stderr", .str errOut)]
  | .err msg => .obj [("error", .str msg)]

/-- `script_result.get("returncode", 0)`: the dict from the error branch has
no `returncode` key, so the default `0` is used. -/
def ScriptResult.getReturncode : ScriptResult → Int
  | .ok rc _ _ => rc
  | .err _ => 0

/-- Content of the file at `CONF_PATH` when it exists: either it reads and
parses as JSON value `j`, or reading/parsing it raises an exception with
message `e`. -/
inductive FileData where
  | jsonFile (j : JsonVal) : FileData
  | corruptFile (e : String) : FileData

/-- The HTTP methods routed to `vrrp_handler`
(`methods=["GET", "POST", "PUT", "DELETE", "OPTIONS"]`). -/
inductive Method where
  | GET | POST | PUT | DELETE | OPTIONS
  deriving DecidableEq

/-- The request body as the handler observes it:
`noJson` when `request.is_json` is false (no JSON content type);
`malformed` when the content type is JSON but the body does not parse
(`request.get_json()` raises); `json j` when it parses to `j`. -/
inductive Body where
  | noJson : Body
  | malformed : Body
  | json (j : JsonVal) : Body

/-- External interactions performed by the handler, in order. -/
inductive Event where
  /-- `os.makedirs(CONF_DIR, exist_ok=True)` -/
  | makedirs : Event
  /-- `os.path.exists(CONF_PATH)` -/
  | fsExists : Event
  /-- `open(CONF_PATH); json.load(...)` -/
  | fsRead : Event
  /-- staged write: `open(tmp_path, "w"); json.dump(...)` -/
  | fsTmpWrite : Event
  /-- `os.replace(tmp_path, CONF_PATH)` -/
  | fsReplace : Event
  /-- `os.remove(CONF_PATH)` -/
  | fsRemove : Event
  /-- `run_vrrp_script(verb)` -/
  | actuator (verb : String) : Event
  deriving DecidableEq

/-- Oracle for the external world during one request: outcomes of the
filesystem operations (`none` = success, `some e` = raises with message `e`)
and the Actuator's behaviour per verb. -/
structure Env where
  /-- Outcome of `os.makedirs` in `ensure_conf_dir`. -/
  mkdirErr : Option String
  /-- Outcome of opening/dumping to the sibling `.tmp` path. -/
  tmpWriteErr : Option String
  /-- Outcome of `os.replace(tmp_path, CONF_PATH)`. -/
  renameErr : Option String
  /-- Outcome of `os.remove(CONF_PATH)`. -/
  removeErr : Option String
  /-- Behaviour of `run_vrrp_script` for each action verb. -/
  script : String → ScriptResult

/-- An HTTP response: status code and JSON body (the argument of
`jsonify`; the OPTIONS branch returns the empty string body instead). -/
structure Resp where
  status : Nat
  body : JsonVal

/-- Result of one handler run: the response, the resulting Config Store
state, and the trace of external interactions. -/
structure HOut where
  resp : Resp
  store : Option FileData
  trace : List Event

/-- Shallow embedding of `vrrp_handler` from `src/vrrp_service.py`:
dispatch on method; GET reads the store and invokes the Actuator with
`status`; POST/PUT validate the body, stage-and-replace the store, then
invoke the Actuator with `create`; DELETE invokes the Actuator with
`delete` and then removes the file if present. -/
def vrrp_handler (env : Env) (m : Method) (b : Body) (st : Option FileData) :
    Except PyExn HOut :=
  match m with
  | .OPTIONS =>
      -- return ("", 204)
      .ok ⟨⟨204, .str ""⟩, st, []⟩
  | .GET =>
      match st with
      | none =>
          -- not os.path.exists(CONF_PATH)
          .ok ⟨⟨404, .obj [("error", .str "config not found")]⟩, st, [.fsExists]⟩
      | some (.corruptFile e) =>
          .ok ⟨⟨500, .obj [("error", .str ("failed to read config: " ++ e))]⟩,
               st, [.fsExists, .fsRead]⟩
      | some (.jsonFile j) =>
          let status := env.script "status"
          .ok ⟨⟨200, .obj [("config", j), ("status", status.toJson)]⟩,
               st, [.fsExists, .fsRead, .actuator "status"]⟩
  | .POST | .PUT =>
      match b with
      | .noJson =>
          -- not request.is_json
          .ok ⟨⟨400, .obj [("error", .str "JSON body required")]⟩, st, []⟩
      | .malformed =>
          -- request.get_json() raises BadRequest
          .error .badRequestExn
      | .json payload =>
          match jsonContains "vrrp" payload with
          | .error ex => .error ex
          | .ok false =>
              .ok ⟨⟨400, .obj [("error", .str "top-level \x27vrrp\x27 key missing")]⟩,
                   st, []⟩
          | .ok true =>
              match env.mkdirErr with
              | some e => .error (.osError e)
              | none =>
                  match env.tmpWriteErr with
                  | some e =>
                      .ok ⟨⟨500, .obj [("error", .str ("failed to write config: " ++ e))]⟩,
                           st, [.makedirs, .fsTmpWrite]⟩
                  | none =>
                      match env.renameErr with
                      | some e =>
                          -- os.replace failed; it is atomic, so CONF_PATH is unchanged
                          .ok ⟨⟨500, .obj [("error", .str ("failed to write config: " ++ e))]⟩,
                               st, [.makedirs, .fsTmpWrite, .fsReplace]⟩
                      | none =>
                          let scriptResult := env.script "create"
                          let httpCode : Nat :=
                            if scriptResult.getReturncode ≠ 0 then 500 else 200
                          .ok ⟨⟨httpCode,
                                .obj [("message", .str "config saved"),
                                      ("script", scriptResult.toJson)]⟩,
                               some (.jsonFile payload),
                               [.makedirs, .fsTmpWrite, .fsReplace, .actuator "create"]⟩
  | .DELETE =>
      let scriptResult := env.script "delete"
      match st with
      | some f =>
          match env.removeErr with
          | some e =>
              .ok ⟨⟨500, .obj [("message", .str "delete attempted, but failed to remove config file"),
                               ("file_error", .str e),
                               ("script", scriptResult.toJson)]⟩,
                   some f, [.actuator "delete", .fsExists, .fsRemove]⟩
          | none =>
              .ok ⟨⟨200, .obj [("message", .str "config deleted (if it existed)"),
                               ("script", scriptResult.toJson)]⟩,
                   none, [.actuator "delete", .fsExists, .fsRemove]⟩
      | none =>
          .ok ⟨⟨200, .obj [("message", .str "config deleted (if it existed)"),
                           ("script", scriptResult.toJson)]⟩,
               none, [.actuator "delete", .fsExists]⟩

/-- The Config Store state after one handler call: the new state on normal
return, the unchanged state when an exception escapes (every raising path
raises before any store mutation). -/
def stepStore (st : Option FileData) (c : Env × Method × Body) : Option FileData :=
  match vrrp_handler c.1 c.2.1 c.2.2 st with
  | .ok out => out.store
  | .error _ => st

/-- The Config Store after a sequence of handler calls starting from an
empty store (no file at the canonical path). -/
def runAll (cs : List (Env × Method × Body)) : Option FileData :=
  cs.foldl stepStore none

/-! ### Helper definitions for concrete witnesses -/

/-- An environment where every filesystem operation succeeds and the
Actuator exits 0 with empty output. -/
def okEnv : Env := ⟨none, none, none, none, fun _ => .ok 0 "" ""⟩

/-- An environment where filesystem operations succeed but the Actuator
exits with the non-zero code 7. -/
def failScriptEnv : Env := ⟨none, none, none, none, fun _ => .ok 7 "boom" "err"⟩

/-- An environment where the Actuator executable cannot be spawned
(`run_vrrp_script` returns an error dict). -/
def spawnFailEnv : Env :=
  ⟨none, none, none, none, fun _ => .err "/usr/local/sbin/vrrp.sh not found"⟩

/-- An environment where the staged write to the `.tmp` path raises. -/
def tmpFailEnv : Env := ⟨none, some "disk full", none, none, fun _ => .ok 0 "" ""⟩

/-- An environment where `os.replace` over the canonical path raises. -/
def renameFailEnv : Env :=
  ⟨none, none, some "permission denied", none, fun _ => .ok 0 "" ""⟩

/-- An environment where `os.remove` of the canonical path raises. -/
def removeFailEnv : Env :=
  ⟨none, none, none, some "permission denied", fun _ => .ok 0 "" ""⟩

/-- A sample valid configuration document: `{"vrrp": {"vip": "10.0.0.1"}}`. -/
def sampleDoc : JsonVal := .obj [("vrrp", .obj [("vip", .str "10.0.0.1")])]

/-! ### Helper lemmas -/

/-- PUT and POST run the identical branch of the handler
(`request.method in ("POST", "PUT")`). -/
theorem vrrp_handler_put_eq_post (env : Env) (b : Body) (st : Option FileData) :
    vrrp_handler env .PUT b st = vrrp_handler env .POST b st := rfl

/-- POST branch equation: body whose membership test returns false is
rejected with 400 before any external interaction. -/
theorem post_noVrrp_eq (env : Env) (j : JsonVal) (st : Option FileData)
    (hc : jsonContains "vrrp" j = .ok false) :
    vrrp_handler env .POST (.json j) st =
      .ok ⟨⟨400, .obj [("error", .str "top-level \x27vrrp\x27 key missing")]⟩,
           st, []⟩ := by
  simp [vrrp_handler, hc]

/-- POST branch equation: the staged write to the `.tmp` path raises. -/
theorem post_tmpFail_eq (env : Env) (j : JsonVal) (st : Option FileData)
    (e : String) (hc : jsonContains "vrrp" j = .ok true)
    (hmk : env.mkdirErr = none) (htw : env.tmpWriteErr = some e) :
    vrrp_handler env .POST (.json j) st =
      .ok ⟨⟨500, .obj [("error", .str ("failed to write config: " ++ e))]⟩,
           st, [.makedirs, .fsTmpWrite]⟩ := by
  simp [vrrp_handler, hc, hmk, htw]

/-- POST branch equation: `os.replace` over the canonical path raises;
replacement being atomic, the canonical path is unchanged. -/
theorem post_renameFail_eq (env : Env) (j : JsonVal) (st : Option FileData)
    (e : String) (hc : jsonContains "vrrp" j = .ok true)
    (hmk : env.mkdirErr = none) (htw : env.tmpWriteErr = none)
    (hrn : env.renameErr = some e) :
    vrrp_handler env .POST (.json j) st =
      .ok ⟨⟨500, .obj [("error", .str ("failed to write config: " ++ e))]⟩,
           st, [.makedirs, .fsTmpWrite, .fsReplace]⟩ := by
  simp [vrrp_handler, hc, hmk, htw, hrn]

/-- POST branch equation: the persist succeeds, the Actuator is invoked
with `create`, and the status is 500 exactly when the Actuator reports a
non-zero return code. -/
theorem post_success_eq (env : Env) (j : JsonVal) (st : Option FileData)
    (hc : jsonContains "vrrp" j = .ok true) (hmk : env.mkdirErr = none)
    (htw : env.tmpWriteErr = none) (hrn : env.renameErr = none) :
    vrrp_handler env .POST (.json j) st =
      .ok ⟨⟨if (env.script "create").getReturncode ≠ 0 then 500 else 200,
            .obj [("message", .str "config saved"),
                  ("script", (env.script "create").toJson)]⟩,
           some (.jsonFile j),
           [.makedirs, .fsTmpWrite, .fsReplace, .actuator "create"]⟩ := by
  simp [vrrp_handler, hc, hmk, htw, hrn]

/-- On POST with a parsed JSON body on which the membership test is defined
and the directory creation succeeds, the handler returns normally. -/
theorem postPut_ok (env : Env) (j : JsonVal) (st : Option FileData) (c : Bool)
    (hc : jsonContains "vrrp" j = .ok c) (hmk : env.mkdirErr = none) :
    ∃ out, vrrp_handler env .POST (.json j) st = .ok out := by
  cases c with
  | false => exact ⟨_, post_noVrrp_eq env j st hc⟩
  | true =>
    cases htw : env.tmpWriteErr with
    | some e => exact ⟨_, post_tmpFail_eq env j st e hc hmk htw⟩
    | none =>
      cases hrn : env.renameErr with
      | some e => exact ⟨_, post_renameFail_eq env j st e hc hmk htw hrn⟩
      | none => exact ⟨_, post_success_eq env j st hc hmk htw hrn⟩

/-- DELETE branch equation: a stored document exists and `os.remove`
succeeds. -/
theorem delete_removeOk_eq (env : Env) (b : Body) (f : FileData)
    (hrm : env.removeErr = none) :
    vrrp_handler env .DELETE b (some f) =
      .ok ⟨⟨200, .obj [("message", .str "config deleted (if it existed)"),
                       ("script", (env.script "delete").toJson)]⟩,
           none, [.actuator "delete", .fsExists, .fsRemove]⟩ := by
  simp [vrrp_handler, hrm]

/-- DELETE branch equation: a stored document exists and `os.remove`
raises. -/
theorem delete_removeFail_eq (env : Env) (b : Body) (f : FileData) (e : String)
    (hrm : env.removeErr = some e) :
    vrrp_handler env .DELETE b (some f) =
      .ok ⟨⟨500, .obj [("message", .str "delete attempted, but failed to remove config file"),
                       ("file_error", .str e),
                       ("script", (env.script "delete").toJson)]⟩,
           some f, [.actuator "delete", .fsExists, .fsRemove]⟩ := by
  simp [vrrp_handler, hrm]

/-- Bodies on which the POST/PUT branch performs no uncaught Python
operation: the body parses (or has no JSON content type) and, when it is
JSON, the Python membership test `"vrrp" in payload` is defined
(dict, list or string payloads). -/
def containerBody : Body → Bool
  | .noJson => true
  | .malformed => false
  | .json (.obj _) => true
  | .json (.arr _) => true
  | .json (.str _) => true
  | .json .null => false
  | .json (.bool _) => false
  | .json (.num _) => false

/-- A body classified as container indeed makes the membership test
return a boolean rather than raise. -/
theorem containerBody_json (j : JsonVal) (h : containerBody (.json j) = true) :
    ∃ c, jsonContains "vrrp" j = .ok c := by
  cases j <;> simp_all [containerBody, jsonContains]

/-! ### Claim theorems -/

/-- C9: PUT is equivalent to POST — for every environment, body and store
state, `handle(PUT, body)` yields the same response, store state and
interaction trace as `handle(POST, body)`. -/
theorem put_equiv_post (env : Env) (b : Body) (st : Option FileData) :
    vrrp_handler env .PUT b st = vrrp_handler env .POST b st :=
  vrrp_handler_put_eq_post env b st

/-- C8: GET success is independent of the Actuator outcome — when the
stored document exists and parses as `j`, GET returns 200 with both the
parsed document and the Actuator `status` result, with no hypothesis on the
Actuator's exit code; when no document exists GET returns 404 with
`{"error": "config not found"}`. -/
theorem get_success_independent_of_actuator (env : Env) (b : Body)
    (st : Option FileData) :
    (∀ j, st = some (.jsonFile j) →
      vrrp_handler env .GET b st =
        .ok ⟨⟨200, .obj [("config", j), ("status", (env.script "status").toJson)]⟩,
             st, [.fsExists, .fsRead, .actuator "status"]⟩) ∧
    (st = none →
      vrrp_handler env .GET b st =
        .ok ⟨⟨404, .obj [("error", .str "config not found")]⟩, none, [.fsExists]⟩) := by
  constructor
  · rintro j rfl; rfl
  · rintro rfl; rfl

/-- Witness for C8 at a concrete input: a stored sample document and an
Actuator whose `status` exits with the non-zero code 7 still yield 200. -/
theorem get_success_independent_of_actuator_witness :
    vrrp_handler failScriptEnv .GET .noJson (some (.jsonFile sampleDoc)) =
      .ok ⟨⟨200, .obj [("config", sampleDoc),
                       ("status", .obj [("returncode", .num 7), ("stdout", .str "boom"),
                                        ("stderr", .str "err")])]⟩,
           some (.jsonFile sampleDoc), [.fsExists, .fsRead, .actuator "status"]⟩ :=
  (get_success_independent_of_actuator failScriptEnv .noJson
    (some (.jsonFile sampleDoc))).1 sampleDoc rfl

/-- C7: DELETE is idempotent and actuates first — every branch's trace
begins with the Actuator invocation with verb `delete`; with no stored
document (or when removal succeeds) the response is 200 with
"config deleted (if it existed)" and the Actuator result; when removal of
an existing document fails the response is 500 and still embeds the
Actuator result obtained earlier, and the document is left in place. -/
theorem delete_idempotent_actuates_first (env : Env) (b : Body)
    (st : Option FileData) :
    (st = none →
      vrrp_handler env .DELETE b st =
        .ok ⟨⟨200, .obj [("message", .str "config deleted (if it existed)"),
                         ("script", (env.script "delete").toJson)]⟩,
             none, [.actuator "delete", .fsExists]⟩) ∧
    (∀ f, st = some f → env.removeErr = none →
      vrrp_handler env .DELETE b st =
        .ok ⟨⟨200, .obj [("message", .str "config deleted (if it existed)"),
                         ("script", (env.script "delete").toJson)]⟩,
             none, [.actuator "delete", .fsExists, .fsRemove]⟩) ∧
    (∀ f e, st = some f → env.removeErr = some e →
      vrrp_handler env .DELETE b st =
        .ok ⟨⟨500, .obj [("message", .str "delete attempted, but failed to remove config file"),
                         ("file_error", .str e),
                         ("script", (env.script "delete").toJson)]⟩,
             some f, [.actuator "delete", .fsExists, .fsRemove]⟩) := by
  refine ⟨?_, ?_, ?_⟩
  · rintro rfl; rfl
  · rintro f rfl h; simp [vrrp_handler, h]
  · rintro f e rfl h; simp [vrrp_handler, h]

/-- Witness for C7 at a concrete input: DELETE with no stored document and
an Actuator exiting 0 returns 200 with the idempotent message. -/
theorem delete_idempotent_actuates_first_witness :
    vrrp_handler okEnv .DELETE .noJson none =
      .ok ⟨⟨200, .obj [("message", .str "config deleted (if it existed)"),
                       ("script", .obj [("returncode", .num 0), ("stdout", .str ""),
                                        ("stderr", .str "")])]⟩,
           none, [.actuator "delete", .fsExists]⟩ :=
  (delete_idempotent_actuates_first okEnv .noJson none).1 rfl

/-- C3 counterexample: a POST whose JSON body is the number 5 makes
`"vrrp" in payload` raise `TypeError`, which escapes the handler — the
request does not get a structured JSON response from the handler. -/
theorem handler_total_counterexample :
    vrrp_handler okEnv .POST (.json (.num 5)) none = .error .typeError := rfl

/-- C3 (amended): the handler returns a structured response for every
method, store state and body, provided that on POST/PUT the body parses
and its JSON value is a dict, list or string (so that the Python membership
test is defined) and that `os.makedirs` (outside the `try` block) succeeds;
outside these conditions a `TypeError`, `BadRequest` or `OSError` escapes
the handler. -/
theorem handler_total_amended (env : Env) (m : Method) (b : Body)
    (st : Option FileData) (hmk : env.mkdirErr = none)
    (hb : m = .POST ∨ m = .PUT → containerBody b = true) :
    ∃ out, vrrp_handler env m b st = .ok out := by
  cases m with
  | OPTIONS => exact ⟨_, rfl⟩
  | GET =>
    cases st with
    | none => exact ⟨_, rfl⟩
    | some f => cases f <;> exact ⟨_, rfl⟩
  | DELETE =>
    cases st with
    | none => exact ⟨_, rfl⟩
    | some f =>
      cases hrm : env.removeErr with
      | none => exact ⟨_, delete_removeOk_eq env b f hrm⟩
      | some e => exact ⟨_, delete_removeFail_eq env b f e hrm⟩
  | POST =>
    cases b with
    | noJson => exact ⟨_, rfl⟩
    | malformed => simp [containerBody] at hb
    | json j =>
      obtain ⟨c, hc⟩ := containerBody_json j (hb (Or.inl rfl))
      exact postPut_ok env j st c hc hmk
  | PUT =>
    rw [vrrp_handler_put_eq_post]
    cases b with
    | noJson => exact ⟨_, rfl⟩
    | malformed => simp [containerBody] at hb
    | json j =>
      obtain ⟨c, hc⟩ := containerBody_json j (hb (Or.inr rfl))
      exact postPut_ok env j st c hc hmk

/-- Witness for the amended C3 at a concrete input. -/
theorem handler_total_amended_witness :
    ∃ out, vrrp_handler okEnv .POST (.json sampleDoc) none = .ok out :=
  handler_total_amended okEnv .POST (.json sampleDoc) none rfl (fun _ => rfl)

/-- C1: round-trip — for every JSON object body with a top-level `vrrp`
key, a successful POST (write succeeds, Actuator `create` exits 0, hence
status 200) followed by a GET yields a `config` field equal to the full
POSTed body. -/
theorem post_then_get_roundtrip (env1 env2 : Env) (kvs : List (String × JsonVal))
    (st : Option FileData) (b2 : Body)
    (hmk : env1.mkdirErr = none) (htw : env1.tmpWriteErr = none)
    (hrn : env1.renameErr = none) (hk : hasKey "vrrp" kvs = true)
    (hrc : (env1.script "create").getReturncode = 0) :
    ∃ out : HOut,
      vrrp_handler env1 .POST (.json (.obj kvs)) st = .ok out ∧
      out.resp.status = 200 ∧
      vrrp_handler env2 .GET b2 out.store =
        .ok ⟨⟨200, .obj [("config", .obj kvs),
                         ("status", (env2.script "status").toJson)]⟩,
             out.store, [.fsExists, .fsRead, .actuator "status"]⟩ := by
  have hc : jsonContains "vrrp" (.obj kvs) = .ok true := by
    simp [jsonContains, hk]
  refine ⟨_, post_success_eq env1 (.obj kvs) st hc hmk htw hrn, ?_, ?_⟩
  · simp [hrc]
  · rfl

/-- Witness for C1 at the concrete scenario from the design document:
POST of the sample document under an all-success environment. -/
theorem post_then_get_roundtrip_witness :
    ∃ out : HOut,
      vrrp_handler okEnv .POST (.json (.obj [("vrrp", .obj [("vip", .str "10.0.0.1")])])) none =
        .ok out ∧
      out.resp.status = 200 ∧
      vrrp_handler okEnv .GET .noJson out.store =
        .ok ⟨⟨200, .obj [("config", .obj [("vrrp", .obj [("vip", .str "10.0.0.1")])]),
                         ("status", (okEnv.script "status").toJson)]⟩,
             out.store, [.fsExists, .fsRead, .actuator "status"]⟩ :=
  post_then_get_roundtrip okEnv okEnv [("vrrp", .obj [("vip", .str "10.0.0.1")])]
    none .noJson rfl rfl rfl rfl rfl

/-- C4: write atomicity on failure — on POST/PUT, if the staged write to
the temporary file or the rename over the canonical path raises, the
handler returns 500 with the write-error payload and the store at the
canonical path is exactly what it was before. -/
theorem write_failure_atomic (env : Env) (m : Method) (j : JsonVal)
    (st : Option FileData) (e : String) (hm : m = .POST ∨ m = .PUT)
    (hc : jsonContains "vrrp" j = .ok true) (hmk : env.mkdirErr = none)
    (hfail : env.tmpWriteErr = some e ∨
             (env.tmpWriteErr = none ∧ env.renameErr = some e)) :
    ∃ tr, vrrp_handler env m (.json j) st =
      .ok ⟨⟨500, .obj [("error", .str ("failed to write config: " ++ e))]⟩,
           st, tr⟩ := by
  have hpost : vrrp_handler env m (.json j) st =
      vrrp_handler env .POST (.json j) st := by
    rcases hm with rfl | rfl
    · rfl
    · exact vrrp_handler_put_eq_post env (.json j) st
  rw [hpost]
  rcases hfail with htw | ⟨htw, hrn⟩
  · exact ⟨_, post_tmpFail_eq env j st e hc hmk htw⟩
  · exact ⟨_, post_renameFail_eq env j st e hc hmk htw hrn⟩

/-- Witness for C4 at a concrete input: the tmp-file write raises
"disk full" and the previously stored document is untouched. -/
theorem write_failure_atomic_witness :
    ∃ tr, vrrp_handler tmpFailEnv .POST (.json sampleDoc)
        (some (.jsonFile (.obj [("vrrp", .str "old")]))) =
      .ok ⟨⟨500, .obj [("error", .str "failed to write config: disk full")]⟩,
           some (.jsonFile (.obj [("vrrp", .str "old")])), tr⟩ :=
  write_failure_atomic tmpFailEnv .POST sampleDoc
    (some (.jsonFile (.obj [("vrrp", .str "old")]))) "disk full"
    (Or.inl rfl) rfl rfl (Or.inl rfl)

/-- C5: no side effects on bad request — a POST whose parsed JSON body is
an object lacking the top-level `vrrp` key returns 400 with the exact
error message, leaves the store untouched and performs no filesystem or
Actuator interaction (empty trace); a POST without a JSON body returns 400
with "JSON body required", likewise with no interaction. -/
theorem post_bad_request_no_side_effects (env : Env) (st : Option FileData) :
    (∀ kvs, hasKey "vrrp" kvs = false →
      vrrp_handler env .POST (.json (.obj kvs)) st =
        .ok ⟨⟨400, .obj [("error", .str "top-level \x27vrrp\x27 key missing")]⟩,
             st, []⟩) ∧
    (vrrp_handler env .POST .noJson st =
      .ok ⟨⟨400, .obj [("error", .str "JSON body required")]⟩, st, []⟩) := by
  constructor
  · intro kvs hk
    exact post_noVrrp_eq env (.obj kvs) st (by simp [jsonContains, hk])
  · rfl

/-- Witness for C5 at a concrete input: POST of the empty object is
rejected with 400 and an empty interaction trace. -/
theorem post_bad_request_no_side_effects_witness :
    vrrp_handler okEnv .POST (.json (.obj [])) none =
      .ok ⟨⟨400, .obj [("error", .str "top-level \x27vrrp\x27 key missing")]⟩,
           none, []⟩ :=
  (post_bad_request_no_side_effects okEnv none).1 [] rfl

/-- C6: POST/PUT status rule — after a successful persist the Actuator is
invoked with verb `create`, its result is always embedded in the response
under `script`, the store holds the newly written document, and the HTTP
status is 500 exactly when the Actuator reports a non-zero exit code,
200 otherwise. -/
theorem post_actuator_create_status (env : Env) (m : Method) (j : JsonVal)
    (st : Option FileData) (hm : m = .POST ∨ m = .PUT)
    (hc : jsonContains "vrrp" j = .ok true) (hmk : env.mkdirErr = none)
    (htw : env.tmpWriteErr = none) (hrn : env.renameErr = none) :
    vrrp_handler env m (.json j) st =
      .ok ⟨⟨if (env.script "create").getReturncode ≠ 0 then 500 else 200,
            .obj [("message", .str "config saved"),
                  ("script", (env.script "create").toJson)]⟩,
           some (.jsonFile j),
           [.makedirs, .fsTmpWrite, .fsReplace, .actuator "create"]⟩ := by
  have hpost : vrrp_handler env m (.json j) st =
      vrrp_handler env .POST (.json j) st := by
    rcases hm with rfl | rfl
    · rfl
    · exact vrrp_handler_put_eq_post env (.json j) st
  rw [hpost]
  exact post_success_eq env j st hc hmk htw hrn

/-- Witness for C6 at a concrete input: the Actuator exits 7 on `create`,
so the response is 500 while the store holds the new document. -/
theorem post_actuator_create_status_witness :
    vrrp_handler failScriptEnv .POST (.json sampleDoc) none =
      .ok ⟨⟨500, .obj [("message", .str "config saved"),
                       ("script", .obj [("returncode", .num 7), ("stdout", .str "boom"),
                                        ("stderr", .str "err")])]⟩,
           some (.jsonFile sampleDoc),
           [.makedirs, .fsTmpWrite, .fsReplace, .actuator "create"]⟩ :=
  post_actuator_create_status failScriptEnv .POST sampleDoc none
    (Or.inl rfl) rfl rfl rfl rfl

/-- C10: spawn failure on create is not a 500 — when `run_vrrp_script`
cannot spawn the Actuator it yields the error dict (no `returncode` key, so
`script_result.get("returncode", 0)` is 0), and the handler returns 200
with "config saved" and the error dict embedded. -/
theorem post_spawn_failure_saved_200 (env : Env) (m : Method) (j : JsonVal)
    (st : Option FileData) (msg : String) (hm : m = .POST ∨ m = .PUT)
    (hc : jsonContains "vrrp" j = .ok true) (hmk : env.mkdirErr = none)
    (htw : env.tmpWriteErr = none) (hrn : env.renameErr = none)
    (hsc : env.script "create" = .err msg) :
    (ScriptResult.err msg).getReturncode = 0 ∧
    vrrp_handler env m (.json j) st =
      .ok ⟨⟨200, .obj [("message", .str "config saved"),
                       ("script", .obj [("error", .str msg)])]⟩,
           some (.jsonFile j),
           [.makedirs, .fsTmpWrite, .fsReplace, .actuator "create"]⟩ := by
  have hpost : vrrp_handler env m (.json j) st =
      vrrp_handler env .POST (.json j) st := by
    rcases hm with rfl | rfl
    · rfl
    · exact vrrp_handler_put_eq_post env (.json j) st
  refine ⟨rfl, ?_⟩
  rw [hpost, post_success_eq env j st hc hmk htw hrn, hsc]
  rfl

/-- Witness for C10 at a concrete input: the Actuator executable is
missing, yet POST returns 200 with the error dict embedded. -/
theorem post_spawn_failure_saved_200_witness :
    (ScriptResult.err "/usr/local/sbin/vrrp.sh not found").getReturncode = 0 ∧
    vrrp_handler spawnFailEnv .POST (.json sampleDoc) none =
      .ok ⟨⟨200, .obj [("message", .str "config saved"),
                       ("script", .obj [("error", .str "/usr/local/sbin/vrrp.sh not found")])]⟩,
           some (.jsonFile sampleDoc),
           [.makedirs, .fsTmpWrite, .fsReplace, .actuator "create"]⟩ :=
  post_spawn_failure_saved_200 spawnFailEnv .POST sampleDoc none
    "/usr/local/sbin/vrrp.sh not found" (Or.inl rfl) rfl rfl rfl rfl rfl

/-! ### Store invariant (C2) -/

/-- A file content was written by the handler: it is JSON on which the
Python membership test `"vrrp" in payload` returned `True`. -/
def vrrpWritten (f : FileData) : Prop :=
  ∃ j, f = .jsonFile j ∧ jsonContains "vrrp" j = .ok true

/-- Store states whose document, when present, was written by the
handler's validated write path. -/
def storeOk (st : Option FileData) : Prop :=
  ∀ f, st = some f → vrrpWritten f

/-- One POST step preserves the store invariant. -/
theorem stepStore_post_preserves (env : Env) (b : Body) (st : Option FileData)
    (h : storeOk st) : storeOk (stepStore st (env, .POST, b)) := by
  cases b with
  | noJson => simpa [stepStore, vrrp_handler] using h
  | malformed => simpa [stepStore, vrrp_handler] using h
  | json j =>
    cases hc : jsonContains "vrrp" j with
    | error ex => simpa [stepStore, vrrp_handler, hc] using h
    | ok c =>
      cases c with
      | false => simpa [stepStore, post_noVrrp_eq env j st hc] using h
      | true =>
        cases hmk : env.mkdirErr with
        | some e => simpa [stepStore, vrrp_handler, hc, hmk] using h
        | none =>
          cases htw : env.tmpWriteErr with
          | some e => simpa [stepStore, post_tmpFail_eq env j st e hc hmk htw] using h
          | none =>
            cases hrn : env.renameErr with
            | some e =>
                simpa [stepStore, post_renameFail_eq env j st e hc hmk htw hrn] using h
            | none =>
                have hs : stepStore st (env, .POST, .json j) = some (.jsonFile j) := by
                  simp [stepStore, post_success_eq env j st hc hmk htw hrn]
                rw [hs]
                intro f hf
                injection hf with hf2
                exact ⟨j, hf2.symm, hc⟩

/-- Any single handler step preserves the store invariant. -/
theorem stepStore_preserves (c : Env × Method × Body) (st : Option FileData)
    (h : storeOk st) : storeOk (stepStore st c) := by
  obtain ⟨env, m, b⟩ := c
  cases m with
  | OPTIONS => simpa [stepStore, vrrp_handler] using h
  | GET =>
    cases st with
    | none => simpa [stepStore, vrrp_handler] using h
    | some f => cases f <;> simpa [stepStore, vrrp_handler] using h
  | DELETE =>
    cases st with
    | none => intro f hf; simp [stepStore, vrrp_handler] at hf
    | some f =>
      cases hrm : env.removeErr with
      | none =>
          intro f2 hf2
          simp [stepStore, delete_removeOk_eq env b f hrm] at hf2
      | some e => simpa [stepStore, delete_removeFail_eq env b f e hrm] using h
  | POST => exact stepStore_post_preserves env b st h
  | PUT =>
    have hp : stepStore st (env, .PUT, b) = stepStore st (env, .POST, b) := by
      simp [stepStore, vrrp_handler_put_eq_post]
    rw [hp]
    exact stepStore_post_preserves env b st h

/-- The invariant holds after folding any call sequence from an invariant
state. -/
theorem foldl_storeOk (cs : List (Env × Method × Body)) (st : Option FileData)
    (h : storeOk st) : storeOk (cs.foldl stepStore st) := by
  induction cs generalizing st with
  | nil => exact h
  | cons c cs ih => exact ih (stepStore st c) (stepStore_preserves c st h)

/-- C2 counterexample: the claim's invariant "the stored document has a
top-level 'vrrp' key" fails — POSTing the JSON array `["vrrp"]` passes the
membership check (list element membership) and is persisted, yet the
stored document is an array, not an object with a `vrrp` key. -/
theorem store_invariant_counterexample :
    runAll [(okEnv, .POST, .json (.arr [.str "vrrp"]))] =
      some (.jsonFile (.arr [.str "vrrp"])) ∧
    isObjWithKey "vrrp" (.arr [.str "vrrp"]) = false := ⟨rfl, rfl⟩

/-- C2 (amended): after any sequence of handler calls starting from an
empty store, whenever a document exists at the canonical path it is valid
JSON on which the Python membership test `"vrrp" in payload` returned
`True` (for object documents this is exactly a top-level `vrrp` key; array
and string documents merely containing "vrrp" also pass). -/
theorem store_invariant_membership (cs : List (Env × Method × Body))
    (f : FileData) (h : runAll cs = some f) :
    ∃ j, f = .jsonFile j ∧ jsonContains "vrrp" j = .ok true :=
  foldl_storeOk cs none (fun _ hf => Option.noConfusion hf) f h

/-- Witness for the amended C2 at a concrete call sequence. -/
theorem store_invariant_membership_witness :
    ∃ j, FileData.jsonFile sampleDoc = .jsonFile j ∧
      jsonContains "vrrp" j = .ok true :=
  store_invariant_membership [(okEnv, .POST, .json sampleDoc)]
    (.jsonFile sampleDoc) rfl
